import Mathlib

/-!
Verification of the PAIArchitecture repository against its specification.

The repository has two independent Python scripts:
  * `src/skills/FitnessCoach/Tools/GarminSync.py` — a CLI data puller that
    fetches activities, sleep, HRV and recovery data from Garmin Connect and
    formats them;
  * `src/VoiceServer/kokoro-server.py` — a minimal HTTP text-to-speech server
    with an OpenAI-compatible `/v1/audio/speech` endpoint.

This file gives a shallow embedding of the data model and the operations of
both scripts and proves / refutes the specification claims about them.
Remote API calls are modelled as explicit per-day input families
(`ℕ → Except Unit (Option _)`, where `.error` models a raised exception and
`.ok none` models a falsy/absent response).  Python numbers are modelled as
rationals, Python `None`-able values as `Option`, and dates as integer day
numbers (`today - i` stands for the date `i` days before today).
-/

/-! ## Python primitive semantics -/

/-- Python `int(x)` on a number: truncation toward zero. -/
def pyInt (q : ℚ) : ℤ := if 0 ≤ q then ⌊q⌋ else ⌈q⌉

/-- Python `round(x)` (no digits argument): round-half-to-even on the ideal
rational value. -/
def pyRound (q : ℚ) : ℤ :=
  let f : ℤ := ⌊q⌋
  let r : ℚ := q - f
  if r < 1/2 then f
  else if 1/2 < r then f + 1
  else if f % 2 = 0 then f else f + 1

/-- Python `round(x, k)` for `k ≥ 1` digits. -/
def pyRoundTo (q : ℚ) (k : ℕ) : ℚ := (pyRound (q * 10 ^ k) : ℚ) / 10 ^ k

/-- Decimal digit character. -/
def digitChar : ℕ → Char
  | 0 => '0' | 1 => '1' | 2 => '2' | 3 => '3' | 4 => '4'
  | 5 => '5' | 6 => '6' | 7 => '7' | 8 => '8' | _ => '9'

/-- Decimal digits of a natural number (fuel-indexed helper). -/
def natDigitsAux : ℕ → ℕ → List Char
  | 0, _ => []
  | fuel + 1, n => if n < 10 then [digitChar n] else natDigitsAux fuel (n / 10) ++ [digitChar (n % 10)]

/-- Python `str` of a natural number. -/
def natRepr (n : ℕ) : String := String.mk (natDigitsAux (n + 1) n)

/-- Python `str` of an integer. -/
def intRepr (n : ℤ) : String := if n < 0 then "-" ++ natRepr (-n).toNat else natRepr n.toNat

/-- Python `f"{n:02d}"`: pad with a leading zero to width two. -/
def pad2 (n : ℤ) : String := if 0 ≤ n ∧ n < 10 then "0" ++ intRepr n else intRepr n

/-- `l` starts with `p` (character-list comparison). -/
def listStarts : List Char → List Char → Bool
  | _, [] => true
  | [], _ :: _ => false
  | c :: cs, d :: ds => (if c = d then true else false) && listStarts cs ds

/-- Helper for Python substring containment. -/
def containsAux (p : List Char) : List Char → Bool
  | [] => p.isEmpty
  | c :: rest => listStarts (c :: rest) p || containsAux p rest

/-- Python `pat in s` substring containment on strings. -/
def strContains (s pat : String) : Bool := containsAux pat.data s.data

/-- A character stripped by Python `s.strip(' |')`. -/
def isSpacePipe (c : Char) : Bool := (if c = ' ' then true else false) || (if c = '|' then true else false)

/-- Python `s.strip(' |')`: drop space and pipe characters from both ends. -/
def pyStripSpacePipe (s : String) : String :=
  String.mk (((s.data.dropWhile isSpacePipe).reverse.dropWhile isSpacePipe).reverse)

namespace GarminSync

/-! ## Data model for `GarminSync.py`

Raw provider records are modelled as records of `Option` fields: `none`
means the key is absent from the provider's JSON payload. -/

/-- The `activityType` sub-dictionary of a raw activity. -/
structure ActivityType where
  typeKey : Option String
deriving Repr, DecidableEq

/-- A raw activity record, with exactly the keys `format_activity` reads. -/
structure Activity where
  activityName : Option String
  activityType : Option ActivityType
  startTimeLocal : Option String
  distance : Option ℚ
  duration : Option ℚ
  averageHR : Option ℚ
  maxHR : Option ℚ
  calories : Option ℚ
deriving Repr, DecidableEq

/-- The output record of `format_activity`. -/
structure FormattedActivity where
  date : String
  type : String
  name : String
  distance_mi : ℚ
  duration_min : ℚ
  avg_hr : Option ℤ
  max_hr : Option ℤ
  calories : Option ℤ
  pace : Option String
deriving Repr, DecidableEq

/-- `act.get('activityType', {}).get('typeKey', 'unknown')` (GarminSync.py:115). -/
def actTypeOf (act : Activity) : String :=
  (act.activityType.bind (fun t => t.typeKey)).getD "unknown"

/-- `act.get('distance', 0) / 1609.34` — meters to miles (GarminSync.py:117). -/
def distMi (act : Activity) : ℚ := act.distance.getD 0 / 1609.34

/-- `act.get('duration', 0) / 60` — seconds to minutes (GarminSync.py:118). -/
def durMin (act : Activity) : ℚ := act.duration.getD 0 / 60

/-- `format_activity` (GarminSync.py:112-141).  The pace string mirrors
`f" | {pace_min}:{pace_sec:02d}/mi"` followed by `.strip(' |')`. -/
def format_activity (act : Activity) : FormattedActivity :=
  let act_type := actTypeOf act
  let distance := distMi act
  let duration := durMin act
  let avg_hr := act.averageHR.getD 0
  let max_hr := act.maxHR.getD 0
  let calories := act.calories.getD 0
  let pace_str :=
    if strContains act_type "running" = true ∧ 0 < distance then
      let pace := duration / distance
      let pace_min := pyInt pace
      let pace_sec := pyInt ((pace - pace_min) * 60)
      " | " ++ (intRepr pace_min ++ ":" ++ pad2 pace_sec ++ "/mi")
    else ""
  { date := (act.startTimeLocal.getD "").take 10
    type := act_type
    name := act.activityName.getD "Unknown"
    distance_mi := pyRoundTo distance 2
    duration_min := pyRoundTo duration 1
    avg_hr := if avg_hr = 0 then none else some (pyInt avg_hr)
    max_hr := if max_hr = 0 then none else some (pyInt max_hr)
    calories := if calories = 0 then none else some (pyInt calories)
    pace := if pace_str = "" then none else some (pyStripSpacePipe pace_str) }

/-! ## Sleep (`get_sleep_data`, `format_sleep`) -/

/-- The `dailySleepDTO` sub-record of a raw sleep response. -/
structure DailySleepDTO where
  sleepTimeSeconds : Option ℚ
  deepSleepSeconds : Option ℚ
  lightSleepSeconds : Option ℚ
  remSleepSeconds : Option ℚ
  awakeSleepSeconds : Option ℚ
  sleepStartTimestampLocal : Option ℚ
  sleepEndTimestampLocal : Option ℚ
deriving Repr, DecidableEq

/-- A raw (truthy) sleep response.  `selfDTO` holds the response's own
top-level sleep keys: `format_sleep` falls back to the response itself
(`latest.get('dailySleepDTO', latest)`, GarminSync.py:98) when the
`dailySleepDTO` key is absent. -/
structure SleepResp where
  dailySleepDTO : Option DailySleepDTO
  selfDTO : DailySleepDTO
deriving Repr, DecidableEq

/-- The all-absent DTO. -/
def emptyDTO : DailySleepDTO := ⟨none, none, none, none, none, none, none⟩

/-- Placeholder response used only to totalize projections. -/
def defaultSleepResp : SleepResp := ⟨none, emptyDTO⟩

/-- A kept entry `{'date': target_date, 'raw': sleep_data}` (GarminSync.py:75-78). -/
structure SleepEntry where
  date : ℤ
  raw : SleepResp
deriving Repr, DecidableEq

/-- Output record of `format_sleep` (GarminSync.py:100-109). -/
structure FormattedSleep where
  date : ℤ
  sleepTimeSeconds : Option ℚ
  deepSleepSeconds : Option ℚ
  lightSleepSeconds : Option ℚ
  remSleepSeconds : Option ℚ
  awakeSleepSeconds : Option ℚ
  sleepStartTimestampLocal : Option ℚ
  sleepEndTimestampLocal : Option ℚ
deriving Repr, DecidableEq

/-- `daily_sleep.get('sleepTimeSeconds')` truthiness test of the keep
condition (GarminSync.py:71-74): the response is truthy, its
`dailySleepDTO` is present and `sleepTimeSeconds` is truthy (non-zero). -/
def sleepKeepResp (resp : SleepResp) : Bool :=
  match resp.dailySleepDTO with
  | some d => match d.sleepTimeSeconds with
    | some v => if v = 0 then false else true
    | none => false
  | none => false

/-- Whether a day's fetch outcome leads to a kept record: an exception
(`.error`) or falsy response (`.ok none`) is skipped. -/
def sleepKeepB : Except Unit (Option SleepResp) → Bool
  | .ok (some r) => sleepKeepResp r
  | _ => false

/-- The response of a kept day's fetch outcome. -/
def sleepRespOf : Except Unit (Option SleepResp) → SleepResp
  | .ok (some r) => r
  | _ => defaultSleepResp

/-- The kept entry for day offset `i`. -/
def sleepEntryOf (fetch : ℕ → Except Unit (Option SleepResp)) (today : ℤ) (i : ℕ) : SleepEntry :=
  ⟨today - i, sleepRespOf (fetch i)⟩

/-- The loop of `get_sleep_data` (GarminSync.py:67-81), scanning `k` day
offsets starting at offset `i`.  A per-day exception silently skips that
day. -/
def sleepScanFrom (fetch : ℕ → Except Unit (Option SleepResp)) (today : ℤ) : ℕ → ℕ → List SleepEntry
  | _, 0 => []
  | i, k + 1 =>
    match fetch i with
    | .ok (some resp) =>
      if sleepKeepResp resp then ⟨today - i, resp⟩ :: sleepScanFrom fetch today (i + 1) k
      else sleepScanFrom fetch today (i + 1) k
    | _ => sleepScanFrom fetch today (i + 1) k

/-- `get_sleep_data(client, days)` (GarminSync.py:56-83). -/
def get_sleep_data (fetch : ℕ → Except Unit (Option SleepResp)) (today : ℤ) (days : ℕ) : List SleepEntry :=
  sleepScanFrom fetch today 0 days

/-- `format_sleep(sleep_records)` (GarminSync.py:86-109): returns the first
record of the scan-ordered list, or `None` when the list is empty. -/
def format_sleep : List SleepEntry → Option FormattedSleep
  | [] => none
  | e :: _ =>
    let daily := e.raw.dailySleepDTO.getD e.raw.selfDTO
    some { date := e.date
           sleepTimeSeconds := daily.sleepTimeSeconds
           deepSleepSeconds := daily.deepSleepSeconds
           lightSleepSeconds := daily.lightSleepSeconds
           remSleepSeconds := daily.remSleepSeconds
           awakeSleepSeconds := daily.awakeSleepSeconds
           sleepStartTimestampLocal := daily.sleepStartTimestampLocal
           sleepEndTimestampLocal := daily.sleepEndTimestampLocal }

/-! ## HRV (`get_hrv_data`) -/

/-- The `baseline` sub-record of a raw HRV summary. -/
structure BaselineRaw where
  balancedLow : Option ℚ
  balancedUpper : Option ℚ
deriving Repr, DecidableEq

/-- A raw (non-empty) `hrvSummary` dictionary. -/
structure HrvSummaryRaw where
  weeklyAvg : Option ℚ
  lastNightAvg : Option ℚ
  status : Option String
  baseline : Option BaselineRaw
deriving Repr, DecidableEq

/-- A raw (truthy) HRV response; `hrvSummary := none` models an absent or
empty `hrvSummary` value (both falsy in Python). -/
structure HrvResp where
  hrvSummary : Option HrvSummaryRaw
deriving Repr, DecidableEq

/-- The formatted baseline of the HRV return value (GarminSync.py:174-177). -/
structure FormattedBaseline where
  balancedLow : Option ℤ
  balancedUpper : Option ℤ
deriving Repr, DecidableEq

/-- The return value of `get_hrv_data` on success (GarminSync.py:169-178). -/
structure HrvRecord where
  date : ℤ
  weeklyAvg : Option ℤ
  lastNightAvg : Option ℤ
  status : String
  baseline : Option FormattedBaseline
deriving Repr, DecidableEq

/-- Python `s.replace('_', ' ')`. -/
def underscoreToSpace (s : String) : String :=
  String.mk (s.data.map (fun c => if c = '_' then ' ' else c))

/-- Python `s.title()`: uppercase an alphabetic character after a
non-alphabetic one, lowercase an alphabetic character after an alphabetic
one. -/
def pyTitle (s : String) : String :=
  String.mk ((s.data.foldl
    (fun (acc : List Char × Bool) c =>
      if c.isAlpha then (acc.1 ++ [if acc.2 then c.toLower else c.toUpper], true)
      else (acc.1 ++ [c], false))
    ([], false)).1)

/-- The record built from the first day with a populated `hrvSummary`
(GarminSync.py:158-178); `i` is the day offset, so the date is `today - i`. -/
def mkHrvRecord (today : ℤ) (i : ℕ) (su : HrvSummaryRaw) : HrvRecord :=
  { date := today - i
    weeklyAvg := match su.weeklyAvg with
      | some v => if v = 0 then none else some (pyRound v)
      | none => none
    lastNightAvg := match su.lastNightAvg with
      | some v => if v = 0 then none else some (pyRound v)
      | none => none
    status := pyTitle (underscoreToSpace (su.status.getD "Unknown"))
    baseline := match su.baseline with
      | some b =>
        some { balancedLow := match b.balancedLow with
                 | some v => if v = 0 then none else some (pyRound v)
                 | none => none
               balancedUpper := match b.balancedUpper with
                 | some v => if v = 0 then none else some (pyRound v)
                 | none => none }
      | none => none }

/-- The loop of `get_hrv_data` (GarminSync.py:153-178) scanning `k` day
offsets starting at offset `i`.  The `try` block wraps the whole loop, so
an exception on any scanned day aborts the search and yields `None`. -/
def hrvScanFrom (fetch : ℕ → Except Unit (Option HrvResp)) (today : ℤ) : ℕ → ℕ → Option HrvRecord
  | _, 0 => none
  | i, k + 1 =>
    match fetch i with
    | .error _ => none
    | .ok none => hrvScanFrom fetch today (i + 1) k
    | .ok (some r) =>
      match r.hrvSummary with
      | none => hrvScanFrom fetch today (i + 1) k
      | some su => some (mkHrvRecord today i su)

/-- `get_hrv_data(client, days)` (GarminSync.py:144-186). -/
def get_hrv_data (fetch : ℕ → Except Unit (Option HrvResp)) (today : ℤ) (days : ℕ) : Option HrvRecord :=
  hrvScanFrom fetch today 0 days

/-- The HRV step of `main` (GarminSync.py:292): `hrv = get_hrv_data(client)`.
The call does not pass `args.days`, so the default window `days=7` is used;
`argsDays` is accepted here to show the result's independence from it. -/
def mainHrv (fetch : ℕ → Except Unit (Option HrvResp)) (today : ℤ) (argsDays : ℕ) : Option HrvRecord :=
  get_hrv_data fetch today 7

/-- A fetch outcome that neither raises nor yields a populated `hrvSummary`. -/
def hrvNoHitB : Except Unit (Option HrvResp) → Bool
  | .ok none => true
  | .ok (some r) => r.hrvSummary.isNone
  | .error _ => false

/-- A fetch outcome carrying a populated `hrvSummary`. -/
def hrvHitB : Except Unit (Option HrvResp) → Bool
  | .ok (some r) => r.hrvSummary.isSome
  | _ => false

/-! ## Recovery (`get_recovery_data`) -/

/-- A raw (truthy) user-summary response, with the two keys read by
`get_recovery_data` (GarminSync.py:212-222). -/
structure Summary where
  restingHeartRate : Option ℚ
  bodyBatteryMostRecentValue : Option ℚ
deriving Repr, DecidableEq

/-- A raw training-readiness response that is a truthy `dict`
(`tr and isinstance(tr, dict)`, GarminSync.py:230); a falsy or non-dict
response is modelled as `.ok none`. -/
structure Readiness where
  score : Option ℚ
  level : Option String
  sleepScore : Option ℚ
  hrvWeeklyAverage : Option ℚ
deriving Repr, DecidableEq

/-- The accumulator of `get_recovery_data`: the `recovery` dict plus the
separately tracked `resting_hr` (GarminSync.py:197-204). -/
structure RecoveryState where
  score : Option ℚ
  level : Option String
  bodyBattery : Option ℚ
  sleepScore : Option ℚ
  hrvWeeklyAverage : Option ℚ
  restingHR : Option ℚ
deriving Repr, DecidableEq

/-- Initial accumulator: everything `None`. -/
def initRecovery : RecoveryState := ⟨none, none, none, none, none, none⟩

/-- The user-summary half of the loop body (GarminSync.py:210-224): take
`restingHeartRate` only if still unset and truthy, and
`bodyBatteryMostRecentValue` only if still unset and not `None`.  A raised
exception or falsy response skips the whole block. -/
def summaryStep (sF : ℕ → Except Unit (Option Summary)) (i : ℕ)
    (st : RecoveryState) : RecoveryState :=
  match sF i with
  | .ok (some sm) =>
    let a :=
      if st.restingHR = none then
        match sm.restingHeartRate with
        | some v => if v = 0 then st else { st with restingHR := some v }
        | none => st
      else st
    if a.bodyBattery = none then
      match sm.bodyBatteryMostRecentValue with
      | some bb => { a with bodyBattery := some bb }
      | none => a
    else a
  | _ => st

/-- One iteration of the recovery loop body for day offset `i`
(GarminSync.py:210-236): the user-summary half, then the readiness call,
which is made only while `score` is still `None` and, on a truthy dict
response, assigns all four readiness fields at once.  A raised exception
in either call skips that part. -/
def recoveryStep (sF : ℕ → Except Unit (Option Summary))
    (rF : ℕ → Except Unit (Option Readiness)) (i : ℕ) (st : RecoveryState) : RecoveryState :=
  if (summaryStep sF i st).score = none then
    match rF i with
    | .ok (some tr) =>
      { summaryStep sF i st with score := tr.score, level := tr.level,
                                 sleepScore := tr.sleepScore, hrvWeeklyAverage := tr.hrvWeeklyAverage }
    | _ => summaryStep sF i st
  else summaryStep sF i st

/-- Both stop-condition pieces are resolved
(`recovery['score'] is not None and resting_hr is not None`,
GarminSync.py:239). -/
def bothDoneB (st : RecoveryState) : Bool := !st.score.isNone && !st.restingHR.isNone

/-- The `for days_ago in range(0, 7)` loop with its early `break`
(GarminSync.py:207-240), scanning `k` day offsets starting at offset `i`. -/
def recoveryLoop (sF : ℕ → Except Unit (Option Summary))
    (rF : ℕ → Except Unit (Option Readiness)) : ℕ → ℕ → RecoveryState → RecoveryState
  | _, 0, st => st
  | i, k + 1, st =>
    let st' := recoveryStep sF rF i st
    if bothDoneB st' then st' else recoveryLoop sF rF (i + 1) k st'

/-- `get_recovery_data(client)` (GarminSync.py:189-242).  The function has
no `days` parameter: the window is fixed at day offsets `0..6`. -/
def get_recovery_data (sF : ℕ → Except Unit (Option Summary))
    (rF : ℕ → Except Unit (Option Readiness)) : RecoveryState :=
  recoveryLoop sF rF 0 7 initRecovery

/-- The recovery step of `main` (GarminSync.py:293):
`recovery, resting_hr = get_recovery_data(client)`; `argsDays` is accepted
here to show the result's independence from `--days`. -/
def mainRecovery (sF : ℕ → Except Unit (Option Summary))
    (rF : ℕ → Except Unit (Option Readiness)) (argsDays : ℕ) : RecoveryState :=
  get_recovery_data sF rF

/-- The state after running the first `n` loop iterations without the
early-exit test (the straight-line fold of the loop body). -/
def foldUpTo (sF : ℕ → Except Unit (Option Summary))
    (rF : ℕ → Except Unit (Option Readiness)) : ℕ → RecoveryState
  | 0 => initRecovery
  | n + 1 => recoveryStep sF rF n (foldUpTo sF rF n)

/-- The `level` carried by a readiness fetch outcome, for stating which
values are seen by the scan. -/
def readinessLevel : Except Unit (Option Readiness) → Option String
  | .ok (some tr) => tr.level
  | _ => none

end GarminSync

namespace KokoroServer

/-! ## Data model for `kokoro-server.py`

JSON values as produced by `json.loads`. -/

/-- A JSON value. -/
inductive JVal where
  | jstr (s : String)
  | jnum (q : ℚ)
  | jbool (b : Bool)
  | jnull
  | jarr (l : List JVal)
  | jobj (l : List (String × JVal))

/-- Python truthiness of a JSON value (`if not text`, kokoro-server.py:82). -/
def jTruthy : JVal → Bool
  | .jstr s => if s = "" then false else true
  | .jnum q => if q = 0 then false else true
  | .jbool b => b
  | .jnull => false
  | .jarr l => !l.isEmpty
  | .jobj l => !l.isEmpty

/-- `body.get(key, default)` (kokoro-server.py:78-80).  On a non-dict value
`.get` raises `AttributeError`, modelled as an `Except` error. -/
def jget (body : JVal) (key : String) (dflt : JVal) : Except String JVal :=
  match body with
  | .jobj l => .ok ((l.lookup key).getD dflt)
  | _ => .error "AttributeError: object has no attribute get"

/-- Digit value of a character, if it is a decimal digit. -/
def charDigit (c : Char) : Option ℕ :=
  if 48 ≤ c.toNat ∧ c.toNat ≤ 57 then some (c.toNat - 48) else none

/-- Value of a non-empty all-digit character list. -/
def digitsToNat : List Char → Option ℕ
  | [] => none
  | l => l.foldl (fun acc c =>
      match acc, charDigit c with
      | some a, some d => some (a * 10 + d)
      | _, _ => none) (some 0)

/-- Parse an unsigned decimal literal `digits [. digits]` (at least one
digit overall), the fragment of Python `float(str)` the server can rely
on. -/
def parseUnsigned (l : List Char) : Option ℚ :=
  let ip := l.takeWhile (fun c => !(c = '.'))
  let rest := l.dropWhile (fun c => !(c = '.'))
  match rest with
  | [] => (digitsToNat ip).map (fun n => (n : ℚ))
  | _ :: fp =>
    if fp.any (fun c => c = '.') then none
    else if ip = [] ∧ fp = [] then none
    else
      match (if ip = [] then some 0 else digitsToNat ip),
            (if fp = [] then some 0 else digitsToNat fp) with
      | some n, some f => some ((n : ℚ) + (f : ℚ) / 10 ^ fp.length)
      | _, _ => none

/-- An ASCII whitespace character, as stripped by Python `float(str)`. -/
def isPySpace (c : Char) : Bool :=
  (if c = ' ' then true else false)
  || (if c.toNat = 9 then true else false)
  || (if c.toNat = 10 then true else false)
  || (if c.toNat = 11 then true else false)
  || (if c.toNat = 12 then true else false)
  || (if c.toNat = 13 then true else false)

/-- Strip leading and trailing whitespace. -/
def pyStrTrim (s : String) : List Char :=
  ((s.data.dropWhile isPySpace).reverse.dropWhile isPySpace).reverse

/-- Python `float(s)` on a string: strip whitespace, optional sign, decimal
literal. -/
def floatOfStr (s : String) : Option ℚ :=
  match pyStrTrim s with
  | [] => none
  | c :: rest =>
    if c = '-' then (parseUnsigned rest).map (fun q => -q)
    else if c = '+' then parseUnsigned rest
    else parseUnsigned (c :: rest)

/-- Python `float(x)` on a JSON value (kokoro-server.py:80): numbers pass
through, booleans become 0/1, strings are parsed, everything else raises. -/
def pyFloat : JVal → Except String ℚ
  | .jnum q => .ok q
  | .jbool b => .ok (if b then 1 else 0)
  | .jstr s =>
    match floatOfStr s with
    | some q => .ok q
    | none => .error ("could not convert string to float: " ++ s)
  | .jnull => .error "float argument must be a string or a real number, not NoneType"
  | .jarr _ => .error "float argument must be a string or a real number, not list"
  | .jobj _ => .error "float argument must be a string or a real number, not dict"

/-- The single quote character, for building exact response strings. -/
def sq : String := String.mk [Char.ofNat 39]

/-- The exact 400 error message `Missing 'input' field` (kokoro-server.py:83). -/
def missingInputMsg : String := "Missing " ++ sq ++ "input" ++ sq ++ " field"

/-- The observable outcome of a POST request: a JSON response with a status
code, or a 200 WAV response recording exactly the text, voice and speed
forwarded to `kokoro.create` (kokoro-server.py:88). -/
inductive ServerResult where
  | json (code : ℕ) (body : List (String × JVal))
  | wav (text voice : JVal) (speed : ℚ)

/-- The `try` block of `do_POST` (kokoro-server.py:74-103): extract `input`,
`voice` and `speed` (converting `speed` with `float` before the `input`
check), reject falsy `input` with the exact 400 body, otherwise synthesize.
`synth` models `kokoro.create` plus the WAV encoding; its `.error` is a
raised exception.  Any error propagates to the `except` handler. -/
def speechCore (synth : JVal → JVal → ℚ → Except String Unit)
    (parsed : Except String JVal) : Except String ServerResult :=
  match parsed with
  | .error e => .error e
  | .ok body =>
    match jget body "input" (.jstr "") with
    | .error e => .error e
    | .ok text =>
      match jget body "voice" (.jstr "af_heart") with
      | .error e => .error e
      | .ok voice =>
        match jget body "speed" (.jnum 1) with
        | .error e => .error e
        | .ok spv =>
          match pyFloat spv with
          | .error e => .error e
          | .ok speed =>
            if jTruthy text = false then
              .ok (.json 400 [("error", .jstr missingInputMsg)])
            else
              match synth text voice speed with
              | .ok _ => .ok (.wav text voice speed)
              | .error e => .error e

/-- `do_POST` (kokoro-server.py:69-107): route check, then the `try` block
with its `except` handler mapping any exception to a 500 JSON error. -/
def do_POST (synth : JVal → JVal → ℚ → Except String Unit)
    (path : String) (parsed : Except String JVal) : ServerResult :=
  if path = "/v1/audio/speech" then
    match speechCore synth parsed with
    | .ok r => r
    | .error msg => .json 500 [("error", .jstr msg)]
  else .json 404 [("error", .jstr "Not found. Use POST /v1/audio/speech")]

/-- `log_message` (kokoro-server.py:117-120): emit the request-log line only
when `args` is non-empty and `"500"` occurs in `str(args[0])`. -/
def log_message_emits (fmt : String) (args : List String) : Bool :=
  match args with
  | [] => false
  | a :: _ => strContains a "500"

/-- Python `fmt % args` for `%s`-only format strings, which is how
`BaseHTTPRequestHandler` renders the request-log line
(`'"%s" %s %s' % (requestline, code, size)`). -/
def pyPercentFormat (fmt : String) (args : List String) : String :=
  String.mk (percentAux fmt.data args)
where
  /-- Substitute each `%s` in turn. -/
  percentAux : List Char → List String → List Char
    | [], _ => []
    | '%' :: 's' :: rest, a :: as => a.data ++ percentAux rest as
    | '%' :: 's' :: rest, [] => '%' :: 's' :: percentAux rest []
    | c :: rest, as => c :: percentAux rest as

end KokoroServer

/-! ## Helper lemmas -/

/-- No decimal digit character is stripped by `.strip(' |')`. -/
lemma isSpacePipe_digitChar (k : ℕ) : isSpacePipe (digitChar k) = false := by
  rcases k with _ | _ | _ | _ | _ | _ | _ | _ | _ | m
  · decide
  · decide
  · decide
  · decide
  · decide
  · decide
  · decide
  · decide
  · decide
  · show isSpacePipe '9' = false
    decide

/-- Characters of `natDigitsAux` are digit characters, hence not stripped. -/
lemma natDigitsAux_not_spacePipe : ∀ fuel n : ℕ, ∀ c ∈ natDigitsAux fuel n, isSpacePipe c = false := by
  intro fuel
  induction fuel with
  | zero => intro n c hc; simp [natDigitsAux] at hc
  | succ f ih =>
    intro n c hc
    by_cases h : n < 10
    · simp [natDigitsAux, h] at hc
      subst hc; exact isSpacePipe_digitChar n
    · simp [natDigitsAux, h, List.mem_append] at hc
      rcases hc with hc | hc
      · exact ih _ c hc
      · subst hc; exact isSpacePipe_digitChar (n % 10)

/-- Characters of `intRepr` are not stripped by `.strip(' |')`. -/
lemma intRepr_not_spacePipe (n : ℤ) : ∀ c ∈ (intRepr n).data, isSpacePipe c = false := by
  intro c hc
  unfold intRepr at hc
  by_cases h : n < 0
  · simp only [if_pos h] at hc
    rw [String.data_append] at hc
    rcases List.mem_append.mp hc with hc | hc
    · have : c = '-' := by simpa using hc
      subst this; decide
    · exact natDigitsAux_not_spacePipe _ _ c hc
  · simp only [if_neg h] at hc
    exact natDigitsAux_not_spacePipe _ _ c hc

/-- Characters of `pad2` are not stripped by `.strip(' |')`. -/
lemma pad2_not_spacePipe (n : ℤ) : ∀ c ∈ (pad2 n).data, isSpacePipe c = false := by
  intro c hc
  unfold pad2 at hc
  by_cases h : 0 ≤ n ∧ n < 10
  · simp only [if_pos h] at hc
    rw [String.data_append] at hc
    rcases List.mem_append.mp hc with hc | hc
    · have : c = '0' := by simpa using hc
      subst this; decide
    · exact intRepr_not_spacePipe n c hc
  · simp only [if_neg h] at hc
    exact intRepr_not_spacePipe n c hc

/-- `dropWhile` is the identity on a list none of whose elements satisfy the
predicate. -/
lemma dropWhile_of_all_false {p : Char → Bool} :
    ∀ l : List Char, (∀ c ∈ l, p c = false) → l.dropWhile p = l := by
  intro l h
  cases l with
  | nil => rfl
  | cons c t =>
    rw [List.dropWhile_cons, h c (by simp)]
    simp

/-- Stripping `' '` and `'|'` from `" | " ++ body` leaves exactly `body`
when no character of `body` is a space or pipe. -/
lemma pyStripSpacePipe_concat (body : String)
    (h : ∀ c ∈ body.data, isSpacePipe c = false) :
    pyStripSpacePipe (" | " ++ body) = body := by
  have hdata : (" | " ++ body).data = ' ' :: '|' :: ' ' :: body.data := by
    rw [String.data_append]; rfl
  have t1 : isSpacePipe ' ' = true := by decide
  have t2 : isSpacePipe '|' = true := by decide
  unfold pyStripSpacePipe
  rw [hdata, List.dropWhile_cons, if_pos t1, List.dropWhile_cons, if_pos t2,
      List.dropWhile_cons, if_pos t1, dropWhile_of_all_false body.data h,
      dropWhile_of_all_false body.data.reverse
        (by intro c hc; exact h c (List.mem_reverse.mp hc)),
      List.reverse_reverse]

/-- No character of the pace body `M:SS/mi` is a space or pipe. -/
lemma paceBody_not_spacePipe (a b : ℤ) :
    ∀ c ∈ (intRepr a ++ ":" ++ pad2 b ++ "/mi").data, isSpacePipe c = false := by
  intro c hc
  rw [String.data_append, String.data_append, String.data_append] at hc
  rcases List.mem_append.mp hc with hc | hc
  · rcases List.mem_append.mp hc with hc | hc
    · rcases List.mem_append.mp hc with hc | hc
      · exact intRepr_not_spacePipe a c hc
      · have : c = ':' := by simpa using hc
        subst this; decide
    · exact pad2_not_spacePipe b c hc
  · have : c = '/' ∨ c = 'm' ∨ c = 'i' := by simpa using hc
    rcases this with h | h | h <;> (subst h; decide)

namespace GarminSync

/-- On a running activity with positive converted distance, the `pace`
field of `format_activity` is the stripped `M:SS/mi` string built from the
truncated minutes-per-mile value. -/
lemma format_activity_pace (act : Activity)
    (h1 : strContains (actTypeOf act) "running" = true)
    (h2 : 0 < distMi act) :
    (format_activity act).pace =
      some (intRepr (pyInt (durMin act / distMi act)) ++ ":" ++
            pad2 (pyInt ((durMin act / distMi act - pyInt (durMin act / distMi act)) * 60)) ++ "/mi") := by
  unfold format_activity
  simp only [if_pos (And.intro h1 h2)]
  set body := intRepr (pyInt (durMin act / distMi act)) ++ ":" ++
      pad2 (pyInt ((durMin act / distMi act - pyInt (durMin act / distMi act)) * 60)) ++ "/mi" with hbody
  have hne : (" | " ++ body) ≠ "" := by
    intro h
    have : (" | " ++ body).data = ("" : String).data := by rw [h]
    rw [String.data_append] at this
    simp at this
  rw [if_neg hne, pyStripSpacePipe_concat body (paceBody_not_spacePipe _ _)]

end GarminSync

namespace GarminSync

/-- A 30-minute, 5-mile run (raw: 1800 s, 8046.7 m). -/
def runAct : Activity :=
  { activityName := some "Morning Run"
    activityType := some ⟨some "running"⟩
    startTimeLocal := some "2025-01-01 07:00:00"
    distance := some 8046.7
    duration := some 1800
    averageHR := none
    maxHR := none
    calories := none }

/-- C2 counterexample: the 30-minute, 5-mile running activity satisfies the
claim's hypotheses, but its formatted `pace` field is `"6:00/mi"` — the
string carries the `/mi` suffix — not the claimed `"6:00"`. -/
theorem pace_example_is_6_00_per_mi :
    strContains (actTypeOf runAct) "running" = true
    ∧ distMi runAct = 5
    ∧ durMin runAct = 30
    ∧ (format_activity runAct).pace = some "6:00/mi"
    ∧ (format_activity runAct).pace ≠ some "6:00" := by
  have hd : distMi runAct = 5 := by norm_num [distMi, runAct]
  have hu : durMin runAct = 30 := by norm_num [durMin, runAct]
  have h2 : (0:ℚ) < distMi runAct := by rw [hd]; norm_num
  have h := format_activity_pace runAct (by decide) h2
  rw [hd, hu] at h
  have hp : (30:ℚ) / 5 = 6 := by norm_num
  rw [hp] at h
  have e1 : pyInt (6:ℚ) = 6 := by norm_num [pyInt]
  rw [e1] at h
  have e2 : ((6:ℚ) - ((6:ℤ):ℚ)) * 60 = 0 := by norm_num
  rw [e2] at h
  have e3 : pyInt (0:ℚ) = 0 := by norm_num [pyInt]
  rw [e3] at h
  have e4 : intRepr 6 ++ ":" ++ pad2 0 ++ "/mi" = "6:00/mi" := by decide
  rw [e4] at h
  refine ⟨by decide, hd, hu, h, ?_⟩
  rw [h]
  intro hcontra
  have : ("6:00/mi" : String) = "6:00" := by injection hcontra
  exact absurd this (by decide)

/-- C2 (amended): for a running activity with positive converted distance
(and non-negative raw duration), the `pace` field is the minutes-per-mile
value truncated to whole minutes, a colon, the two-digit seconds component
(which lies in `[0, 60)`), and the suffix `/mi`; in particular 30 minutes
over 5 miles yields `"6:00/mi"`. -/
theorem running_pace_minutes_seconds (act : Activity)
    (h1 : strContains (actTypeOf act) "running" = true)
    (h2 : 0 < distMi act)
    (h3 : 0 ≤ act.duration.getD 0) :
    (format_activity act).pace =
      some (intRepr ⌊durMin act / distMi act⌋ ++ ":" ++
            pad2 ⌊(durMin act / distMi act - ⌊durMin act / distMi act⌋) * 60⌋ ++ "/mi")
    ∧ 0 ≤ ⌊(durMin act / distMi act - ⌊durMin act / distMi act⌋) * 60⌋
    ∧ ⌊(durMin act / distMi act - ⌊durMin act / distMi act⌋) * 60⌋ < 60 := by
  have hdur : 0 ≤ durMin act := by
    unfold durMin; positivity
  have hp0 : 0 ≤ durMin act / distMi act := div_nonneg hdur (le_of_lt h2)
  set p := durMin act / distMi act with hpdef
  have hfr : (0:ℚ) ≤ (p - ⌊p⌋) * 60 := by
    have h0 : (0:ℚ) ≤ p - ⌊p⌋ := by
      have := Int.fract_nonneg p
      rwa [Int.fract] at this
    positivity
  have e1 : pyInt p = ⌊p⌋ := if_pos hp0
  have e2 : pyInt ((p - ⌊p⌋) * 60) = ⌊(p - ⌊p⌋) * 60⌋ := if_pos hfr
  have h := format_activity_pace act h1 h2
  rw [← hpdef, e1, e2] at h
  refine ⟨h, Int.floor_nonneg.mpr hfr, ?_⟩
  have hlt : (p - ⌊p⌋) * 60 < 60 := by
    have h1' : p - ⌊p⌋ < 1 := by
      have := Int.fract_lt_one p
      rwa [Int.fract] at this
    nlinarith
  exact Int.floor_lt.mpr (by exact_mod_cast hlt)

/-- C2 witness: the amended theorem evaluated on the 30-minute, 5-mile run
produces the pace string `"6:00/mi"`. -/
theorem running_pace_witness : (format_activity runAct).pace = some "6:00/mi" := by
  have hd : distMi runAct = 5 := by norm_num [distMi, runAct]
  have h2 : (0:ℚ) < distMi runAct := by rw [hd]; norm_num
  have h := (running_pace_minutes_seconds runAct (by decide) h2
    (by norm_num [runAct])).1
  have hu : durMin runAct = 30 := by norm_num [durMin, runAct]
  rw [hd, hu] at h
  have hp : (30:ℚ) / 5 = 6 := by norm_num
  rw [hp] at h
  have e1 : ⌊(6:ℚ)⌋ = 6 := by norm_num
  rw [e1] at h
  have e2 : ((6:ℚ) - ((6:ℤ):ℚ)) * 60 = 0 := by norm_num
  rw [e2] at h
  have e3 : ⌊(0:ℚ)⌋ = 0 := by norm_num
  rw [e3] at h
  have e4 : intRepr 6 ++ ":" ++ pad2 0 ++ "/mi" = "6:00/mi" := by decide
  rwa [e4] at h

end GarminSync

namespace GarminSync

/-- Behaviour of the `int(x) if x else None` idiom applied to a
`.get(key, 0)` value: `None` exactly on an absent or zero datum. -/
lemma truthyIntField (o : Option ℚ) :
    ((if o.getD 0 = 0 then none else some (pyInt (o.getD 0))) = (none : Option ℤ)
      ↔ (o = none ∨ o = some 0))
    ∧ ∀ v : ℚ, o = some v → v ≠ 0 →
        (if o.getD 0 = 0 then none else some (pyInt (o.getD 0))) = some (pyInt v) := by
  rcases o with _ | v
  · simp
  · constructor
    · by_cases hv : v = 0 <;> simp [hv]
    · intro w hw hv
      have : v = w := by injection hw
      subst this
      simp [hv]

/-- Behaviour of the `round(x) if x else None` idiom applied to a
`.get(key)` value: `None` exactly on an absent or zero datum. -/
lemma truthyRoundField (o : Option ℚ) :
    ((match o with
      | some v => if v = 0 then none else some (pyRound v)
      | none => none) = (none : Option ℤ) ↔ (o = none ∨ o = some 0))
    ∧ ∀ v : ℚ, o = some v → v ≠ 0 →
        (match o with
         | some v => if v = 0 then none else some (pyRound v)
         | none => none) = some (pyRound v) := by
  rcases o with _ | v
  · simp
  · constructor
    · by_cases hv : v = 0 <;> simp [hv]
    · intro w hw hv
      have : v = w := by injection hw
      subst this
      simp [hv]

/-- C3 (amended): every optional output field (`avg_hr`, `max_hr`,
`calories` of a formatted activity; `weeklyAvg`, `lastNightAvg`,
`balancedLow`, `balancedUpper` of a formatted HRV summary) is `null`
exactly when the datum is absent from the provider record **or its value
is zero** (Python truthiness), and carries the converted value otherwise —
so a present value of 0 is *not* distinguishable from missing data. -/
theorem optional_fields_null_iff_absent_or_zero (act : Activity) (today : ℤ) (i : ℕ)
    (s : HrvSummaryRaw) :
    ((format_activity act).avg_hr = none ↔ (act.averageHR = none ∨ act.averageHR = some 0))
    ∧ (∀ v : ℚ, act.averageHR = some v → v ≠ 0 →
        (format_activity act).avg_hr = some (pyInt v))
    ∧ ((format_activity act).max_hr = none ↔ (act.maxHR = none ∨ act.maxHR = some 0))
    ∧ (∀ v : ℚ, act.maxHR = some v → v ≠ 0 →
        (format_activity act).max_hr = some (pyInt v))
    ∧ ((format_activity act).calories = none ↔ (act.calories = none ∨ act.calories = some 0))
    ∧ (∀ v : ℚ, act.calories = some v → v ≠ 0 →
        (format_activity act).calories = some (pyInt v))
    ∧ ((mkHrvRecord today i s).weeklyAvg = none ↔ (s.weeklyAvg = none ∨ s.weeklyAvg = some 0))
    ∧ (∀ v : ℚ, s.weeklyAvg = some v → v ≠ 0 →
        (mkHrvRecord today i s).weeklyAvg = some (pyRound v))
    ∧ ((mkHrvRecord today i s).lastNightAvg = none
        ↔ (s.lastNightAvg = none ∨ s.lastNightAvg = some 0))
    ∧ (∀ v : ℚ, s.lastNightAvg = some v → v ≠ 0 →
        (mkHrvRecord today i s).lastNightAvg = some (pyRound v))
    ∧ (s.baseline = none → (mkHrvRecord today i s).baseline = none)
    ∧ (∀ b : BaselineRaw, s.baseline = some b →
        ∃ fb : FormattedBaseline, (mkHrvRecord today i s).baseline = some fb
          ∧ (fb.balancedLow = none ↔ (b.balancedLow = none ∨ b.balancedLow = some 0))
          ∧ (∀ v : ℚ, b.balancedLow = some v → v ≠ 0 → fb.balancedLow = some (pyRound v))
          ∧ (fb.balancedUpper = none ↔ (b.balancedUpper = none ∨ b.balancedUpper = some 0))
          ∧ (∀ v : ℚ, b.balancedUpper = some v → v ≠ 0 →
              fb.balancedUpper = some (pyRound v))) := by
  have havg : (format_activity act).avg_hr =
      (if act.averageHR.getD 0 = 0 then none else some (pyInt (act.averageHR.getD 0))) := rfl
  have hmax : (format_activity act).max_hr =
      (if act.maxHR.getD 0 = 0 then none else some (pyInt (act.maxHR.getD 0))) := rfl
  have hcal : (format_activity act).calories =
      (if act.calories.getD 0 = 0 then none else some (pyInt (act.calories.getD 0))) := rfl
  have hw : (mkHrvRecord today i s).weeklyAvg =
      (match s.weeklyAvg with
       | some v => if v = 0 then none else some (pyRound v)
       | none => none) := rfl
  have hl : (mkHrvRecord today i s).lastNightAvg =
      (match s.lastNightAvg with
       | some v => if v = 0 then none else some (pyRound v)
       | none => none) := rfl
  refine ⟨?_, ?_, ?_, ?_, ?_, ?_, ?_, ?_, ?_, ?_, ?_, ?_⟩
  · rw [havg]; exact (truthyIntField act.averageHR).1
  · intro v hv hnz; rw [havg]; exact (truthyIntField act.averageHR).2 v hv hnz
  · rw [hmax]; exact (truthyIntField act.maxHR).1
  · intro v hv hnz; rw [hmax]; exact (truthyIntField act.maxHR).2 v hv hnz
  · rw [hcal]; exact (truthyIntField act.calories).1
  · intro v hv hnz; rw [hcal]; exact (truthyIntField act.calories).2 v hv hnz
  · rw [hw]; exact (truthyRoundField s.weeklyAvg).1
  · intro v hv hnz; rw [hw]; exact (truthyRoundField s.weeklyAvg).2 v hv hnz
  · rw [hl]; exact (truthyRoundField s.lastNightAvg).1
  · intro v hv hnz; rw [hl]; exact (truthyRoundField s.lastNightAvg).2 v hv hnz
  · intro hb; simp [mkHrvRecord, hb]
  · intro b hb
    refine ⟨⟨(match b.balancedLow with
              | some v => if v = 0 then none else some (pyRound v)
              | none => none),
             (match b.balancedUpper with
              | some v => if v = 0 then none else some (pyRound v)
              | none => none)⟩, ?_, ?_, ?_, ?_, ?_⟩
    · simp [mkHrvRecord, hb]
    · exact (truthyRoundField b.balancedLow).1
    · intro v hv hnz; exact (truthyRoundField b.balancedLow).2 v hv hnz
    · exact (truthyRoundField b.balancedUpper).1
    · intro v hv hnz; exact (truthyRoundField b.balancedUpper).2 v hv hnz

end GarminSync

namespace GarminSync

/-- An activity whose provider record carries `calories = 0` (present). -/
def zeroCalAct : Activity :=
  ⟨none, none, none, none, none, none, none, some 0⟩

/-- C3 counterexample: the datum `calories` is present (with value 0) in
the provider record, yet the formatted field is `null` — a present 0 is
not distinguishable from missing data, so the optional field is not null
*exactly* when the datum is absent. -/
theorem present_zero_calories_formats_to_null :
    zeroCalAct.calories = some 0
    ∧ zeroCalAct.calories ≠ none
    ∧ (format_activity zeroCalAct).calories = none := by
  refine ⟨rfl, by decide, by decide⟩

/-- An activity whose provider record carries `averageHR = 150`. -/
def hrAct : Activity :=
  ⟨none, none, none, none, none, some 150, none, none⟩

/-- C3 witness: a present non-zero datum is carried into the formatted
field. -/
theorem optional_fields_witness : (format_activity hrAct).avg_hr = some 150 := by
  have h := (optional_fields_null_iff_absent_or_zero hrAct 0 0
    ⟨none, none, none, none⟩).2.1 150 rfl (by norm_num)
  rw [h]
  norm_num [pyInt]

end GarminSync

namespace GarminSync

/-- The sleep scan equals, in scan order, the kept entries of the window:
exactly the offsets whose fetch outcome passes the truthiness check. -/
lemma sleepScanFrom_eq_filter (fetch : ℕ → Except Unit (Option SleepResp)) (today : ℤ) :
    ∀ k s : ℕ, sleepScanFrom fetch today s k =
      ((List.range' s k).filter (fun i => sleepKeepB (fetch i))).map
        (fun i => sleepEntryOf fetch today i) := by
  intro k
  induction k with
  | zero => intro s; simp [sleepScanFrom]
  | succ k ih =>
    intro s
    rw [List.range'_succ, List.filter_cons]
    rcases h : fetch s with u | r
    · have hk : sleepKeepB (Except.error u) = false := rfl
      rw [hk]
      simp only [Bool.false_eq_true, if_false]
      rw [← ih (s + 1)]
      simp [sleepScanFrom, h]
    · rcases r with _ | resp
      · have hk : sleepKeepB (Except.ok (none : Option SleepResp)) = false := rfl
        rw [hk]
        simp only [Bool.false_eq_true, if_false]
        rw [← ih (s + 1)]
        simp [sleepScanFrom, h]
      · have hk : sleepKeepB (Except.ok (some resp)) = sleepKeepResp resp := rfl
        rw [hk]
        by_cases hkeep : sleepKeepResp resp = true
        · rw [if_pos hkeep]
          have he : sleepEntryOf fetch today s = ⟨today - s, resp⟩ := by
            unfold sleepEntryOf sleepRespOf
            rw [h]
          simp only [List.map_cons, he]
          rw [← ih (s + 1)]
          simp [sleepScanFrom, h, hkeep]
        · rw [if_neg hkeep]
          rw [← ih (s + 1)]
          have hkeep' : sleepKeepResp resp = false := by
            cases hq : sleepKeepResp resp
            · rfl
            · exact absurd hq hkeep
          simp [sleepScanFrom, h, hkeep']

/-- `format_sleep` projects the date of the head of the kept-entry list. -/
lemma format_sleep_map_head (fetch : ℕ → Except Unit (Option SleepResp)) (today : ℤ)
    (l : List ℕ) :
    (format_sleep (l.map (fun i => sleepEntryOf fetch today i))).map FormattedSleep.date
      = l.head?.map (fun i => (today - (i:ℤ))) := by
  cases l with
  | nil => rfl
  | cons i t => simp [format_sleep, sleepEntryOf]

/-- Filtering a window with exactly one satisfying offset yields that
offset alone. -/
lemma filter_range'_unique (p : ℕ → Bool) (i : ℕ) :
    ∀ k s : ℕ, (∀ j, s ≤ j → j < s + k → (p j = true ↔ j = i)) → s ≤ i → i < s + k →
      (List.range' s k).filter p = [i] := by
  intro k
  induction k with
  | zero => intro s _ hsi hik; omega
  | succ k ih =>
    intro s hiff hsi hik
    rw [List.range'_succ, List.filter_cons]
    by_cases hs : s = i
    · subst hs
      rw [if_pos ((hiff s (le_refl s) (by omega)).mpr rfl)]
      have : (List.range' (s + 1) k).filter p = [] := by
        rw [List.filter_eq_nil_iff]
        intro j hj
        have hb := List.mem_range'_1.mp hj
        intro hpj
        have := (hiff j (by omega) (by omega)).mp hpj
        omega
      rw [this]
    · have hps : p s = false := by
        cases hq : p s
        · rfl
        · exact absurd ((hiff s (le_refl s) (by omega)).mp hq) hs
      rw [hps]
      simp only [Bool.false_eq_true, if_false]
      exact ih (s + 1) (fun j h1 h2 => hiff j (by omega) (by omega)) (by omega) (by omega)

/-- C5: for every `--days = N` and family of per-day sleep outcomes, the
sleep fetch keeps exactly the offsets in `0..N-1` whose response has a
truthy `dailySleepDTO.sleepTimeSeconds` (per-day exceptions skip that
day), in today-first scan order; the selected (formatted) record is the
first kept entry; if only offset `i` qualifies the selected date is
`today - i`; if no day qualifies the result is `None`. -/
theorem sleep_selection (fetch : ℕ → Except Unit (Option SleepResp)) (today : ℤ) (N : ℕ) :
    get_sleep_data fetch today N =
      ((List.range' 0 N).filter (fun i => sleepKeepB (fetch i))).map
        (fun i => sleepEntryOf fetch today i)
    ∧ (format_sleep (get_sleep_data fetch today N)).map FormattedSleep.date
        = ((List.range' 0 N).filter (fun i => sleepKeepB (fetch i))).head?.map
            (fun i => (today - (i:ℤ)))
    ∧ ((∀ i, i < N → sleepKeepB (fetch i) = false) →
        format_sleep (get_sleep_data fetch today N) = none)
    ∧ (∀ i, i < N → (∀ j, j < N → (sleepKeepB (fetch j) = true ↔ j = i)) →
        (format_sleep (get_sleep_data fetch today N)).map FormattedSleep.date
          = some (today - (i:ℤ))) := by
  have h1 : get_sleep_data fetch today N =
      ((List.range' 0 N).filter (fun i => sleepKeepB (fetch i))).map
        (fun i => sleepEntryOf fetch today i) := sleepScanFrom_eq_filter fetch today N 0
  refine ⟨h1, ?_, ?_, ?_⟩
  · rw [h1]; exact format_sleep_map_head fetch today _
  · intro hall
    rw [h1]
    have : (List.range' 0 N).filter (fun i => sleepKeepB (fetch i)) = [] := by
      rw [List.filter_eq_nil_iff]
      intro j hj
      have hb := List.mem_range'_1.mp hj
      rw [hall j (by omega)]
      simp
    rw [this]
    rfl
  · intro i hi hiff
    have hfil : (List.range' 0 N).filter (fun i => sleepKeepB (fetch i)) = [i] :=
      filter_range'_unique _ i N 0 (fun j h1' h2' => hiff j (by omega)) (by omega) (by omega)
    rw [h1, hfil]
    rw [format_sleep_map_head fetch today [i]]
    rfl

end GarminSync

namespace GarminSync

/-- A sleep response with eight hours of recorded sleep. -/
def sleepRespW : SleepResp :=
  ⟨some ⟨some 28800, none, none, none, none, none, none⟩, emptyDTO⟩

/-- A per-day family with recorded sleep only at offset 2. -/
def fetchSleepW : ℕ → Except Unit (Option SleepResp) :=
  fun i => if i = 2 then .ok (some sleepRespW) else .ok none

/-- C5 witness: only offset 2 has non-zero `sleepTimeSeconds`, so the
selected sleep record's date is `today - 2` (with `today = 100`). -/
theorem sleep_selection_witness :
    (format_sleep (get_sleep_data fetchSleepW 100 5)).map FormattedSleep.date = some 98 := by
  have h := (sleep_selection fetchSleepW 100 5).2.2.2 2 (by norm_num) (by decide)
  simpa using h

end GarminSync

namespace GarminSync

/-- If every scanned day yields neither an exception nor a populated
`hrvSummary`, the HRV scan returns `None`. -/
lemma hrvScanFrom_none (fetch : ℕ → Except Unit (Option HrvResp)) (today : ℤ) :
    ∀ k s : ℕ, (∀ j, s ≤ j → j < s + k → hrvNoHitB (fetch j) = true) →
      hrvScanFrom fetch today s k = none := by
  intro k
  induction k with
  | zero => intro s _; rfl
  | succ k ih =>
    intro s hall
    have hs := hall s (le_refl s) (by omega)
    have hrest := ih (s + 1) (fun j h1 h2 => hall j (by omega) (by omega))
    rcases h : fetch s with u | r
    · rw [h] at hs; simp [hrvNoHitB] at hs
    · rcases r with _ | resp
      · simp [hrvScanFrom, h, hrest]
      · have hsum : resp.hrvSummary = none := by
          rw [h] at hs
          simpa [hrvNoHitB, Option.isNone_iff_eq_none] using hs
        simp [hrvScanFrom, h, hsum, hrest]

/-- If the days before offset `i` have no hit and day `i` carries a
populated `hrvSummary`, the HRV scan returns the record for day `i`. -/
lemma hrvScanFrom_hit (fetch : ℕ → Except Unit (Option HrvResp)) (today : ℤ) :
    ∀ k s i : ℕ, s ≤ i → i < s + k →
      (∀ j, s ≤ j → j < i → hrvNoHitB (fetch j) = true) →
      ∀ (r : HrvResp) (su : HrvSummaryRaw), fetch i = .ok (some r) → r.hrvSummary = some su →
        hrvScanFrom fetch today s k = some (mkHrvRecord today i su) := by
  intro k
  induction k with
  | zero => intro s i h1 h2; omega
  | succ k ih =>
    intro s i hsi hik hpre r su hi hsum
    by_cases hs : s = i
    · subst hs
      simp [hrvScanFrom, hi, hsum]
    · have hnh := hpre s (le_refl s) (by omega)
      have hrest := ih (s + 1) i (by omega) (by omega)
        (fun j h1 h2 => hpre j (by omega) h2) r su hi hsum
      rcases h : fetch s with u | rr
      · rw [h] at hnh; simp [hrvNoHitB] at hnh
      · rcases rr with _ | resp
        · simp [hrvScanFrom, h, hrest]
        · have hsum' : resp.hrvSummary = none := by
            rw [h] at hnh
            simpa [hrvNoHitB, Option.isNone_iff_eq_none] using hnh
          simp [hrvScanFrom, h, hsum', hrest]

/-- If the days before offset `i` have no hit and day `i` raises, the
whole HRV fetch returns `None` (the `try` wraps the loop). -/
lemma hrvScanFrom_err (fetch : ℕ → Except Unit (Option HrvResp)) (today : ℤ) :
    ∀ k s i : ℕ, s ≤ i → i < s + k →
      (∀ j, s ≤ j → j < i → hrvNoHitB (fetch j) = true) →
      ∀ u : Unit, fetch i = .error u → hrvScanFrom fetch today s k = none := by
  intro k
  induction k with
  | zero => intro s i h1 h2; omega
  | succ k ih =>
    intro s i hsi hik hpre u hi
    by_cases hs : s = i
    · subst hs
      simp [hrvScanFrom, hi]
    · have hnh := hpre s (le_refl s) (by omega)
      have hrest := ih (s + 1) i (by omega) (by omega)
        (fun j h1 h2 => hpre j (by omega) h2) u hi
      rcases h : fetch s with u' | rr
      · rw [h] at hnh; simp [hrvNoHitB] at hnh
      · rcases rr with _ | resp
        · simp [hrvScanFrom, h, hrest]
        · have hsum' : resp.hrvSummary = none := by
            rw [h] at hnh
            simpa [hrvNoHitB, Option.isNone_iff_eq_none] using hnh
          simp [hrvScanFrom, h, hsum', hrest]

end GarminSync

namespace GarminSync

/-- C1 (amended): `main` calls `get_hrv_data(client)` without passing
`args.days`, so the HRV fetch scans the *fixed* default window of day
offsets `0..6` regardless of `--days`; within that window it returns, for
the first offset with a populated `hrvSummary`, the record dated
`today - offset`; if no such offset exists in the 7-day window, or the
fetch raises before a hit, the HRV result is `None`. -/
theorem hrv_fixed_window_selection (fetch : ℕ → Except Unit (Option HrvResp))
    (today : ℤ) (argsDays : ℕ) :
    (∀ d d' : ℕ, mainHrv fetch today d = mainHrv fetch today d')
    ∧ ((∀ j, j < 7 → hrvNoHitB (fetch j) = true) → mainHrv fetch today argsDays = none)
    ∧ (∀ i, i < 7 → (∀ j, j < i → hrvNoHitB (fetch j) = true) →
        (∀ (r : HrvResp) (su : HrvSummaryRaw), fetch i = .ok (some r) →
          r.hrvSummary = some su →
            mainHrv fetch today argsDays = some (mkHrvRecord today i su)
            ∧ (mkHrvRecord today i su).date = today - (i:ℤ))
        ∧ (∀ u : Unit, fetch i = .error u → mainHrv fetch today argsDays = none)) := by
  refine ⟨fun d d' => rfl, ?_, ?_⟩
  · intro hall
    exact hrvScanFrom_none fetch today 7 0 (fun j h1 h2 => hall j (by omega))
  · intro i hi hpre
    constructor
    · intro r su hr hsum
      refine ⟨?_, rfl⟩
      exact hrvScanFrom_hit fetch today 7 0 i (by omega) (by omega)
        (fun j h1 h2 => hpre j h2) r su hr hsum
    · intro u hu
      exact hrvScanFrom_err fetch today 7 0 i (by omega) (by omega)
        (fun j h1 h2 => hpre j h2) u hu

/-- An HRV summary used by the concrete C1 inputs. -/
def hrvSummaryW : HrvSummaryRaw := ⟨none, none, none, none⟩

/-- A per-day family whose only populated `hrvSummary` is at offset 7. -/
def fetchHrvC1 : ℕ → Except Unit (Option HrvResp) :=
  fun i => if i = 7 then .ok (some ⟨some hrvSummaryW⟩) else .ok none

/-- C1 counterexample: with `--days = 8` and HRV present only at offset 7
(inside the claimed window `0..7`), the claim demands a record dated
`today - 7`, but the pipeline returns `None`: `main` never passes
`args.days` to `get_hrv_data`, which therefore scans only `0..6`. -/
theorem hrv_window_ignores_days_cex :
    (∀ j, j < 7 → hrvNoHitB (fetchHrvC1 j) = true)
    ∧ hrvHitB (fetchHrvC1 7) = true
    ∧ 7 < 8
    ∧ mainHrv fetchHrvC1 0 8 = none
    ∧ ¬ ∃ rec : HrvRecord, mainHrv fetchHrvC1 0 8 = some rec ∧ rec.date = 0 - 7 := by
  have hnone : mainHrv fetchHrvC1 0 8 = none := by decide
  refine ⟨by decide, by decide, by norm_num, hnone, ?_⟩
  rintro ⟨rec, hrec, _⟩
  rw [hnone] at hrec
  exact Option.noConfusion hrec

/-- A per-day family whose only populated `hrvSummary` is at offset 2. -/
def fetchHrvW : ℕ → Except Unit (Option HrvResp) :=
  fun i => if i = 2 then .ok (some ⟨some hrvSummaryW⟩) else .ok none

/-- C1 witness: with the first populated `hrvSummary` at offset 2 the
(amended) theorem yields the record dated `today - 2` — here `48` for
`today = 50` — for any `--days` value (here 12). -/
theorem hrv_selection_witness :
    mainHrv fetchHrvW 50 12 = some (mkHrvRecord 50 2 hrvSummaryW)
    ∧ (mkHrvRecord 50 2 hrvSummaryW).date = 48 := by
  have h := (((hrv_fixed_window_selection fetchHrvW 50 12).2.2 2 (by norm_num)
    (by decide)).1 ⟨some hrvSummaryW⟩ hrvSummaryW rfl rfl)
  refine ⟨h.1, ?_⟩
  rw [h.2]
  decide

end GarminSync

namespace GarminSync

/-- The early-exit loop, entered at offset `i` with the straight-line fold
of the first `i` days, produces the straight-line fold of some prefix `T`:
either the first prefix at which both stop pieces are resolved, or the
whole 7-day window. -/
lemma recoveryLoop_run (sF : ℕ → Except Unit (Option Summary))
    (rF : ℕ → Except Unit (Option Readiness)) :
    ∀ k i : ℕ, i + k = 7 →
      (∀ m, 0 < m → m ≤ i → bothDoneB (foldUpTo sF rF m) = false) →
      ∃ T, i ≤ T ∧ T ≤ 7
        ∧ recoveryLoop sF rF i k (foldUpTo sF rF i) = foldUpTo sF rF T
        ∧ (∀ m, 0 < m → m < T → bothDoneB (foldUpTo sF rF m) = false)
        ∧ (bothDoneB (foldUpTo sF rF T) = true ∨ T = 7) := by
  intro k
  induction k with
  | zero =>
    intro i hik hpre
    refine ⟨7, by omega, le_refl 7, ?_, ?_, Or.inr rfl⟩
    · have : i = 7 := by omega
      subst this
      rfl
    · intro m h1 h2
      exact hpre m h1 (by omega)
  | succ k ih =>
    intro i hik hpre
    have hstep : recoveryLoop sF rF i (k + 1) (foldUpTo sF rF i) =
        if bothDoneB (foldUpTo sF rF (i + 1)) then foldUpTo sF rF (i + 1)
        else recoveryLoop sF rF (i + 1) k (foldUpTo sF rF (i + 1)) := rfl
    cases hb : bothDoneB (foldUpTo sF rF (i + 1)) with
    | true =>
      refine ⟨i + 1, by omega, by omega, ?_, ?_, Or.inl hb⟩
      · rw [hstep, if_pos hb]
      · intro m h1 h2
        exact hpre m h1 (by omega)
    | false =>
      obtain ⟨T, hT1, hT2, hT3, hT4, hT5⟩ := ih (i + 1) (by omega)
        (fun m h1 h2 => by
          rcases Nat.lt_or_ge m (i + 1) with h | h
          · exact hpre m h1 (by omega)
          · have : m = i + 1 := by omega
            subst this
            exact hb)
      refine ⟨T, by omega, hT2, ?_, hT4, hT5⟩
      rw [hstep, if_neg (by rw [hb]; exact Bool.false_ne_true)]
      exact hT3

/-- The recovery fetch is the straight-line fold of a prefix `T ≤ 7`: the
first prefix with both stop pieces resolved, else the full window. -/
lemma get_recovery_run (sF : ℕ → Except Unit (Option Summary))
    (rF : ℕ → Except Unit (Option Readiness)) :
    ∃ T, T ≤ 7 ∧ get_recovery_data sF rF = foldUpTo sF rF T
      ∧ (∀ m, 0 < m → m < T → bothDoneB (foldUpTo sF rF m) = false)
      ∧ (bothDoneB (foldUpTo sF rF T) = true ∨ T = 7) := by
  obtain ⟨T, _, hT2, hT3, hT4, hT5⟩ := recoveryLoop_run sF rF 7 0 rfl (by omega)
  exact ⟨T, hT2, hT3, hT4, hT5⟩

/-- A resolved stop condition forces a non-`None` score. -/
lemma bothDone_score {st : RecoveryState} (h : bothDoneB st = true) : st.score ≠ none := by
  have := (Bool.and_eq_true _ _).mp h
  rcases st with ⟨sc, _, _, _, _, _⟩
  rcases sc with _ | v
  · simp at this
  · simp

/-- C6: the recovery/readiness fetch always scans the fixed window
`0..6` regardless of `--days`; it stops at the first prefix after which
both the recovery score and the resting heart rate are non-null, otherwise
processes the entire 7-day window; a day on which both provider calls
raise contributes nothing (the scan is not aborted). -/
theorem recovery_scan_window_and_early_exit (sF : ℕ → Except Unit (Option Summary))
    (rF : ℕ → Except Unit (Option Readiness)) :
    (∀ d d' : ℕ, mainRecovery sF rF d = mainRecovery sF rF d')
    ∧ ((∀ n, 0 < n → n < 7 → bothDoneB (foldUpTo sF rF n) = false) →
        get_recovery_data sF rF = foldUpTo sF rF 7)
    ∧ (∀ n, 0 < n → n ≤ 7 → bothDoneB (foldUpTo sF rF n) = true →
        (∀ m, 0 < m → m < n → bothDoneB (foldUpTo sF rF m) = false) →
        get_recovery_data sF rF = foldUpTo sF rF n)
    ∧ (∀ (i : ℕ) (st : RecoveryState), sF i = .error () → rF i = .error () →
        recoveryStep sF rF i st = st) := by
  refine ⟨fun d d' => rfl, ?_, ?_, ?_⟩
  · intro hall
    obtain ⟨T, hT1, hT2, hT3, hT4⟩ := get_recovery_run sF rF
    rcases hT4 with hdone | h7
    · have hT0 : 0 < T := by
        rcases Nat.eq_zero_or_pos T with h | h
        · subst h
          have : bothDoneB (foldUpTo sF rF 0) = false := rfl
          rw [this] at hdone
          exact absurd hdone (by decide)
        · exact h
      rcases Nat.lt_or_ge T 7 with h | h
      · rw [hall T hT0 h] at hdone
        exact absurd hdone (by decide)
      · have : T = 7 := by omega
        subst this
        exact hT2
    · subst h7
      exact hT2
  · intro n hn0 hn7 hdone hmin
    obtain ⟨T, hT1, hT2, hT3, hT4⟩ := get_recovery_run sF rF
    have hT0 : 0 < T := by
      rcases Nat.eq_zero_or_pos T with h | h
      · subst h
        rcases hT4 with hd | h7
        · have : bothDoneB (foldUpTo sF rF 0) = false := rfl
          rw [this] at hd
          exact absurd hd (by decide)
        · omega
      · exact h
    have hTn : T = n := by
      rcases Nat.lt_trichotomy T n with h | h | h
      · rcases hT4 with hd | h7
        · rw [hmin T hT0 h] at hd
          exact absurd hd (by decide)
        · omega
      · exact h
      · rw [hT3 n hn0 h] at hdone
        exact absurd hdone (by decide)
    subst hTn
    exact hT2
  · intro i st h1 h2
    have hs : summaryStep sF i st = st := by
      unfold summaryStep
      rw [h1]
    unfold recoveryStep
    rw [hs, h2]
    split_ifs <;> rfl

end GarminSync

namespace GarminSync

/-- The user-summary half never touches the four readiness fields. -/
lemma summaryStep_readiness_fields (sF : ℕ → Except Unit (Option Summary)) (i : ℕ)
    (st : RecoveryState) :
    (summaryStep sF i st).score = st.score
    ∧ (summaryStep sF i st).level = st.level
    ∧ (summaryStep sF i st).sleepScore = st.sleepScore
    ∧ (summaryStep sF i st).hrvWeeklyAverage = st.hrvWeeklyAverage := by
  unfold summaryStep
  rcases h : sF i with u | r
  · exact ⟨rfl, rfl, rfl, rfl⟩
  · rcases r with _ | sm
    · exact ⟨rfl, rfl, rfl, rfl⟩
    · rcases sm with ⟨rhr, bbv⟩
      rcases rhr with _ | v <;> rcases bbv with _ | b <;>
        simp only [] <;> split_ifs <;> simp

/-- The user-summary half never overwrites an already-set body battery. -/
lemma summaryStep_bb_preserved (sF : ℕ → Except Unit (Option Summary)) (i : ℕ)
    (st : RecoveryState) (b : ℚ) (h : st.bodyBattery = some b) :
    (summaryStep sF i st).bodyBattery = some b := by
  unfold summaryStep
  rcases hs : sF i with u | r
  · exact h
  · rcases r with _ | sm
    · exact h
    · rcases sm with ⟨rhr, bbv⟩
      rcases rhr with _ | v <;> rcases bbv with _ | bb <;>
        simp only [] <;> split_ifs <;> simp_all

/-- A full loop iteration never overwrites an already-set body battery. -/
lemma recoveryStep_bb_preserved (sF : ℕ → Except Unit (Option Summary))
    (rF : ℕ → Except Unit (Option Readiness)) (i : ℕ) (st : RecoveryState) (b : ℚ)
    (h : st.bodyBattery = some b) :
    (recoveryStep sF rF i st).bodyBattery = some b := by
  have hs := summaryStep_bb_preserved sF i st b h
  unfold recoveryStep
  split_ifs
  · rcases rF i with u | r
    · exact hs
    · rcases r with _ | tr
      · exact hs
      · exact hs
  · exact hs

/-- Once set, the body battery keeps its value through every later stage
of the straight-line fold. -/
lemma foldUpTo_bb_mono (sF : ℕ → Except Unit (Option Summary))
    (rF : ℕ → Except Unit (Option Readiness)) (m : ℕ) (b : ℚ)
    (h : (foldUpTo sF rF m).bodyBattery = some b) :
    ∀ k : ℕ, (foldUpTo sF rF (m + k)).bodyBattery = some b := by
  intro k
  induction k with
  | zero => exact h
  | succ k ih =>
    show (recoveryStep sF rF (m + k) (foldUpTo sF rF (m + k))).bodyBattery = some b
    exact recoveryStep_bb_preserved sF rF (m + k) _ b ih

/-- C8 counterexample (refutation): there is *no* family of per-day
responses for which the recovery scan assigns `bodyBattery` and later
overwrites it with a different value — the `if recovery['bodyBattery'] is
None` guard (GarminSync.py:219) makes the field first-write-wins, so the
claimed overwrite is impossible for every input. -/
theorem bodyBattery_overwrite_impossible :
    ¬ ∃ (sF : ℕ → Except Unit (Option Summary)) (rF : ℕ → Except Unit (Option Readiness))
        (m mm : ℕ) (b c : ℚ), m < mm ∧ mm ≤ 7
        ∧ (foldUpTo sF rF m).bodyBattery = some b
        ∧ (foldUpTo sF rF mm).bodyBattery = some c
        ∧ b ≠ c := by
  rintro ⟨sF, rF, m, mm, b, c, hlt, hle, hb, hc, hne⟩
  have h := foldUpTo_bb_mono sF rF m b hb (mm - m)
  rw [show m + (mm - m) = mm by omega] at h
  rw [h] at hc
  have : b = c := by injection hc
  exact hne this

/-- C8 (amended): the body battery takes the first non-`None`
`bodyBatteryMostRecentValue` found and is never overwritten afterwards:
once set at some stage of the scan it keeps that value at every later
stage, and a loop iteration leaves an already-set value unchanged. -/
theorem bodyBattery_first_value_kept (sF : ℕ → Except Unit (Option Summary))
    (rF : ℕ → Except Unit (Option Readiness)) (m k : ℕ) (b : ℚ)
    (h : (foldUpTo sF rF m).bodyBattery = some b) :
    (foldUpTo sF rF (m + k)).bodyBattery = some b
    ∧ ∀ (i : ℕ) (st : RecoveryState), st.bodyBattery = some b →
        (recoveryStep sF rF i st).bodyBattery = some b :=
  ⟨foldUpTo_bb_mono sF rF m b h k, fun i st hst => recoveryStep_bb_preserved sF rF i st b hst⟩

/-- A summary family reporting body battery 55 every day. -/
def sFbb : ℕ → Except Unit (Option Summary) := fun _ => .ok (some ⟨none, some 55⟩)

/-- A readiness family that always raises. -/
def rFnone : ℕ → Except Unit (Option Readiness) := fun _ => .error ()

/-- C8 witness: body battery 55 found on day 0 is still 55 after two more
scanned days. -/
theorem bodyBattery_kept_witness :
    (foldUpTo sFbb rFnone 1).bodyBattery = some 55
    ∧ (foldUpTo sFbb rFnone 3).bodyBattery = some 55 := by
  have h1 : (foldUpTo sFbb rFnone 1).bodyBattery = some 55 := by decide
  have h := (bodyBattery_first_value_kept sFbb rFnone 1 2 55 h1).1
  exact ⟨h1, by simpa using h⟩

end GarminSync

namespace GarminSync

/-- Once the score is set, a loop iteration leaves all four readiness
fields unchanged (the readiness call is guarded by `score is None`). -/
lemma recoveryStep_freeze (sF : ℕ → Except Unit (Option Summary))
    (rF : ℕ → Except Unit (Option Readiness)) (i : ℕ) (st : RecoveryState)
    (h : st.score ≠ none) :
    (recoveryStep sF rF i st).score = st.score
    ∧ (recoveryStep sF rF i st).level = st.level
    ∧ (recoveryStep sF rF i st).sleepScore = st.sleepScore
    ∧ (recoveryStep sF rF i st).hrvWeeklyAverage = st.hrvWeeklyAverage := by
  have hs := summaryStep_readiness_fields sF i st
  have hns : ¬ (summaryStep sF i st).score = none := by
    rw [hs.1]; exact h
  have he : recoveryStep sF rF i st = summaryStep sF i st := by
    unfold recoveryStep
    rw [if_neg hns]
  rw [he]
  exact hs

/-- Once the score is set at a stage of the straight-line fold, the four
readiness fields keep their values at every later stage. -/
lemma foldUpTo_freeze (sF : ℕ → Except Unit (Option Summary))
    (rF : ℕ → Except Unit (Option Readiness)) (n : ℕ)
    (h : (foldUpTo sF rF n).score ≠ none) :
    ∀ k : ℕ,
      (foldUpTo sF rF (n + k)).score = (foldUpTo sF rF n).score
      ∧ (foldUpTo sF rF (n + k)).level = (foldUpTo sF rF n).level
      ∧ (foldUpTo sF rF (n + k)).sleepScore = (foldUpTo sF rF n).sleepScore
      ∧ (foldUpTo sF rF (n + k)).hrvWeeklyAverage = (foldUpTo sF rF n).hrvWeeklyAverage := by
  intro k
  induction k with
  | zero => exact ⟨rfl, rfl, rfl, rfl⟩
  | succ k ih =>
    have hscore : (foldUpTo sF rF (n + k)).score ≠ none := by
      rw [ih.1]; exact h
    have hstep := recoveryStep_freeze sF rF (n + k) (foldUpTo sF rF (n + k)) hscore
    have hfold : foldUpTo sF rF (n + (k + 1)) =
        recoveryStep sF rF (n + k) (foldUpTo sF rF (n + k)) := rfl
    rw [hfold]
    exact ⟨hstep.1.trans ih.1, hstep.2.1.trans ih.2.1,
           hstep.2.2.1.trans ih.2.2.1, hstep.2.2.2.trans ih.2.2.2⟩

/-- C7 (amended): while the score is still `None`, each day's truthy
readiness response reassigns all four fields as a group; the final values
of `score`, `level`, `sleepScore` and `hrvWeeklyAverage` all come from the
first scanned day whose readiness response carries a non-null score, and
no later day's response changes them.  (The fields other than `score` do
*not* independently take their first non-null scanned values: they can be
overwritten while the score is still null.) -/
theorem readiness_group_from_first_scored_day (sF : ℕ → Except Unit (Option Summary))
    (rF : ℕ → Except Unit (Option Readiness)) (n : ℕ) (tr : Readiness)
    (hn : n < 7)
    (hsc : ∀ m, m ≤ n → (foldUpTo sF rF m).score = none)
    (hr : rF n = .ok (some tr))
    (hts : tr.score ≠ none) :
    (get_recovery_data sF rF).score = tr.score
    ∧ (get_recovery_data sF rF).level = tr.level
    ∧ (get_recovery_data sF rF).sleepScore = tr.sleepScore
    ∧ (get_recovery_data sF rF).hrvWeeklyAverage = tr.hrvWeeklyAverage := by
  have hst1 := summaryStep_readiness_fields sF n (foldUpTo sF rF n)
  have hscn : (summaryStep sF n (foldUpTo sF rF n)).score = none := by
    rw [hst1.1]; exact hsc n (le_refl n)
  have hday : (foldUpTo sF rF (n + 1)).score = tr.score
      ∧ (foldUpTo sF rF (n + 1)).level = tr.level
      ∧ (foldUpTo sF rF (n + 1)).sleepScore = tr.sleepScore
      ∧ (foldUpTo sF rF (n + 1)).hrvWeeklyAverage = tr.hrvWeeklyAverage := by
    have hfold : foldUpTo sF rF (n + 1) =
        recoveryStep sF rF n (foldUpTo sF rF n) := rfl
    have he : recoveryStep sF rF n (foldUpTo sF rF n) =
        { summaryStep sF n (foldUpTo sF rF n) with
            score := tr.score, level := tr.level,
            sleepScore := tr.sleepScore, hrvWeeklyAverage := tr.hrvWeeklyAverage } := by
      unfold recoveryStep
      rw [if_pos hscn, hr]
    rw [hfold, he]
    exact ⟨rfl, rfl, rfl, rfl⟩
  have hdone : (foldUpTo sF rF (n + 1)).score ≠ none := by
    rw [hday.1]; exact hts
  obtain ⟨T, hT1, hT2, hT3, hT4⟩ := get_recovery_run sF rF
  have hTn : n + 1 ≤ T := by
    by_contra hcon
    have hTle : T ≤ n := by omega
    rcases hT4 with hd | h7
    · exact absurd (hsc T hTle) (bothDone_score hd)
    · omega
  have hfr := foldUpTo_freeze sF rF (n + 1) hdone (T - (n + 1))
  rw [show n + 1 + (T - (n + 1)) = T by omega] at hfr
  rw [hT2]
  exact ⟨hfr.1.trans hday.1, hfr.2.1.trans hday.2.1,
         hfr.2.2.1.trans hday.2.2.1, hfr.2.2.2.trans hday.2.2.2⟩

end GarminSync

namespace GarminSync

/-- A user-summary family that always raises (so the scan never stops
early and `restingHR` stays `None`). -/
def sFnone : ℕ → Except Unit (Option Summary) := fun _ => .error ()

/-- A readiness family: day 0 is a truthy dict with a null score but level
`"high"`; day 1 is a truthy dict with score 50 and level `"low"`. -/
def rFlevels : ℕ → Except Unit (Option Readiness) := fun i =>
  if i = 0 then .ok (some ⟨none, some "high", none, none⟩)
  else if i = 1 then .ok (some ⟨some 50, some "low", none, none⟩)
  else .error ()

/-- C7 counterexample: the first non-null `level` seen by the scan is
`"high"` (day 0), but day 0's readiness response has a null score, so day
1's group assignment overwrites the field: the final `level` is `"low"`.
The four fields therefore do not each take the first non-null value found
scanning today backward. -/
theorem readiness_level_not_first_nonnull :
    readinessLevel (rFlevels 0) = some "high"
    ∧ (get_recovery_data sFnone rFlevels).level = some "low"
    ∧ (get_recovery_data sFnone rFlevels).level ≠ some "high" := by
  refine ⟨rfl, by decide, by decide⟩

/-- C7 witness: day 1 is the first day whose readiness response carries a
non-null score, and the whole group (score and level together) is taken
from it. -/
theorem readiness_group_witness :
    (get_recovery_data sFnone rFlevels).score = some 50
    ∧ (get_recovery_data sFnone rFlevels).level = some "low" := by
  have h := readiness_group_from_first_scored_day sFnone rFlevels 1
    ⟨some 50, some "low", none, none⟩ (by norm_num) (by decide) rfl (by decide)
  exact ⟨h.1, h.2.1⟩

/-- C6 witness: with both per-day calls raising on every day, nothing is
ever resolved and the scan exhausts the whole 7-day window. -/
theorem recovery_window_witness :
    get_recovery_data sFnone rFnone = foldUpTo sFnone rFnone 7 :=
  (recovery_scan_window_and_early_exit sFnone rFnone).2.1
    (by intro n h1 h2; interval_cases n <;> decide)

end GarminSync

namespace KokoroServer

/-- The format string `BaseHTTPRequestHandler.log_request` renders:
`'"%s" %s %s' % (requestline, code, size)`. -/
def logFmt : String := "\"%s\" %s %s"

/-- The request line of a POST to the speech endpoint. -/
def speechReqLine : String := "POST /v1/audio/speech HTTP/1.1"

/-- C9 (code bug evaluated): for the standard request-log invocation of a
500 response — `log_message('"%s" %s %s', requestline, '500', size)` — the
rendered log line contains `"500"`, yet `log_message` emits nothing: the
guard tests only `str(args[0])`, the request line, which does not contain
`"500"`.  The docstring "Quiet request logging — only errors" and the spec
say exactly the opposite. -/
theorem log_message_misses_500_responses :
    log_message_emits logFmt [speechReqLine, "500", "123"] = false
    ∧ strContains (pyPercentFormat logFmt [speechReqLine, "500", "123"]) "500" = true
    ∧ strContains speechReqLine "500" = false := by
  refine ⟨by decide, by decide, by decide⟩

/-- `speechCore` on a parsed JSON object, unfolded up to the data-dependent
tests (a definitional unfolding of kokoro-server.py:78-103). -/
lemma speechCore_obj (synth : JVal → JVal → ℚ → Except String Unit)
    (l : List (String × JVal)) :
    speechCore synth (.ok (.jobj l)) =
      match pyFloat ((l.lookup "speed").getD (.jnum 1)) with
      | .error e => .error e
      | .ok speed =>
        if jTruthy ((l.lookup "input").getD (.jstr "")) = false then
          .ok (.json 400 [("error", .jstr missingInputMsg)])
        else
          match synth ((l.lookup "input").getD (.jstr ""))
                      ((l.lookup "voice").getD (.jstr "af_heart")) speed with
          | .ok _ => .ok (.wav ((l.lookup "input").getD (.jstr ""))
                               ((l.lookup "voice").getD (.jstr "af_heart")) speed)
          | .error e => .error e := rfl

/-- `speechCore` when the `speed` conversion succeeds. -/
lemma speechCore_obj_ok (synth : JVal → JVal → ℚ → Except String Unit)
    (l : List (String × JVal)) (sp : ℚ)
    (hsp : pyFloat ((l.lookup "speed").getD (.jnum 1)) = .ok sp) :
    speechCore synth (.ok (.jobj l)) =
      if jTruthy ((l.lookup "input").getD (.jstr "")) = false then
        .ok (.json 400 [("error", .jstr missingInputMsg)])
      else
        match synth ((l.lookup "input").getD (.jstr ""))
                    ((l.lookup "voice").getD (.jstr "af_heart")) sp with
        | .ok _ => .ok (.wav ((l.lookup "input").getD (.jstr ""))
                             ((l.lookup "voice").getD (.jstr "af_heart")) sp)
        | .error e => .error e := by
  have h := speechCore_obj synth l
  rw [hsp] at h
  exact h

/-- `speechCore` when the `speed` conversion raises: the exception
propagates. -/
lemma speechCore_obj_err (synth : JVal → JVal → ℚ → Except String Unit)
    (l : List (String × JVal)) (msg : String)
    (hsp : pyFloat ((l.lookup "speed").getD (.jnum 1)) = .error msg) :
    speechCore synth (.ok (.jobj l)) = .error msg := by
  have h := speechCore_obj synth l
  rw [hsp] at h
  exact h

/-- C4 (amended): a POST to `/v1/audio/speech` whose body parses as a JSON
*object*, whose `input` is missing or empty (falsy), and whose `speed`
field converts with `float` (it is absent, or numeric), is answered 400
with exactly `{"error": "Missing 'input' field"}`, and the synthesis
engine is never consulted (the result is the same for every engine). -/
theorem missing_input_yields_400 (synth synth' : JVal → JVal → ℚ → Except String Unit)
    (l : List (String × JVal)) (sp : ℚ)
    (hin : jTruthy ((l.lookup "input").getD (.jstr "")) = false)
    (hsp : pyFloat ((l.lookup "speed").getD (.jnum 1)) = .ok sp) :
    do_POST synth "/v1/audio/speech" (.ok (.jobj l)) =
      .json 400 [("error", .jstr missingInputMsg)]
    ∧ do_POST synth "/v1/audio/speech" (.ok (.jobj l)) =
      do_POST synth' "/v1/audio/speech" (.ok (.jobj l)) := by
  have hcore : ∀ s : JVal → JVal → ℚ → Except String Unit,
      speechCore s (.ok (.jobj l)) = .ok (.json 400 [("error", .jstr missingInputMsg)]) := by
    intro s
    have h1 := speechCore_obj_ok s l sp hsp
    rw [if_pos hin] at h1
    exact h1
  have hpost : ∀ s : JVal → JVal → ℚ → Except String Unit,
      do_POST s "/v1/audio/speech" (.ok (.jobj l)) =
        .json 400 [("error", .jstr missingInputMsg)] := by
    intro s
    unfold do_POST
    rw [if_pos rfl, hcore s]
  exact ⟨hpost synth, (hpost synth).trans (hpost synth').symm⟩

/-- A synthesis engine that always succeeds. -/
def synthAlways : JVal → JVal → ℚ → Except String Unit := fun _ _ _ => .ok ()

/-- C4 counterexample: a JSON object body `{"speed": "fast"}` has a
missing `input`, yet the response is a 500 (the `float` conversion of
`speed` runs before the `input` check and raises), not the claimed 400. -/
theorem missing_input_can_yield_500 :
    List.lookup "input" [("speed", JVal.jstr "fast")] = none
    ∧ do_POST synthAlways "/v1/audio/speech" (.ok (.jobj [("speed", .jstr "fast")]))
        = .json 500 [("error", .jstr "could not convert string to float: fast")]
    ∧ do_POST synthAlways "/v1/audio/speech" (.ok (.jobj [("speed", .jstr "fast")]))
        ≠ .json 400 [("error", .jstr missingInputMsg)] := by
  have h500 : do_POST synthAlways "/v1/audio/speech" (.ok (.jobj [("speed", .jstr "fast")]))
      = .json 500 [("error", .jstr "could not convert string to float: fast")] := rfl
  refine ⟨rfl, h500, ?_⟩
  intro h
  rw [h500] at h
  injection h with h1 h2
  exact absurd h1 (by norm_num)

/-- C4 witness: the empty-string `input` (with no `speed` field, so the
default converts) is answered with the exact 400 body, for any engine. -/
theorem missing_input_400_witness :
    do_POST synthAlways "/v1/audio/speech" (.ok (.jobj [("input", .jstr "")]))
      = .json 400 [("error", .jstr missingInputMsg)] :=
  (missing_input_yields_400 synthAlways synthAlways [("input", .jstr "")] 1 rfl rfl).1

end KokoroServer

namespace KokoroServer

/-- C10: with a non-empty `input`, `voice` and `speed` undergo no range or
type validation beyond `float` conversion of `speed`: any numeric speed —
zero, negative, arbitrarily large — and any `voice` value are forwarded
unchanged to the synthesis engine; a `speed` that `float` cannot convert
makes the request fail 500 (the conversion exception reaches the generic
handler), not 400. -/
theorem speed_voice_unvalidated (synth : JVal → JVal → ℚ → Except String Unit)
    (t v sp : JVal) (q : ℚ) (msg : String)
    (ht : jTruthy t = true) :
    (synth t v q = .ok () →
      do_POST synth "/v1/audio/speech"
          (.ok (.jobj [("input", t), ("voice", v), ("speed", .jnum q)]))
        = .wav t v q)
    ∧ (pyFloat sp = .error msg →
      do_POST synth "/v1/audio/speech"
          (.ok (.jobj [("input", t), ("speed", sp)]))
        = .json 500 [("error", .jstr msg)]) := by
  constructor
  · intro hsyn
    have h1 := speechCore_obj_ok synth [("input", t), ("voice", v), ("speed", .jnum q)] q rfl
    rw [show (List.lookup "input" [("input", t), ("voice", v), ("speed", JVal.jnum q)]).getD
          (JVal.jstr "") = t from rfl] at h1
    rw [show (List.lookup "voice" [("input", t), ("voice", v), ("speed", JVal.jnum q)]).getD
          (JVal.jstr "af_heart") = v from rfl] at h1
    rw [ht, if_neg (by simp), hsyn] at h1
    have h2 : speechCore synth
        (.ok (.jobj [("input", t), ("voice", v), ("speed", .jnum q)])) = .ok (.wav t v q) := h1
    unfold do_POST
    rw [if_pos rfl, h2]
  · intro hbad
    have hsp2 : pyFloat ((List.lookup "speed"
        [("input", t), ("speed", sp)]).getD (.jnum 1)) = .error msg := by
      rw [show (List.lookup "speed" [("input", t), ("speed", sp)]).getD (JVal.jnum 1)
            = sp from rfl]
      exact hbad
    have h := speechCore_obj_err synth [("input", t), ("speed", sp)] msg hsp2
    unfold do_POST
    rw [if_pos rfl, h]

/-- C10 witness: a negative speed `-5` and a numeric `voice` are forwarded
untouched; the speed string `"fast"` produces a 500 JSON error even though
`input` is non-empty. -/
theorem speed_voice_unvalidated_witness :
    do_POST synthAlways "/v1/audio/speech"
        (.ok (.jobj [("input", .jstr "hi"), ("voice", .jnum 3), ("speed", .jnum (-5))]))
      = .wav (.jstr "hi") (.jnum 3) (-5)
    ∧ do_POST synthAlways "/v1/audio/speech"
        (.ok (.jobj [("input", .jstr "hi"), ("speed", .jstr "fast")]))
      = .json 500 [("error", .jstr "could not convert string to float: fast")] := by
  have h := speed_voice_unvalidated synthAlways (.jstr "hi") (.jnum 3) (.jstr "fast")
    (-5) "could not convert string to float: fast" rfl
  exact ⟨h.1 rfl, h.2 rfl⟩

end KokoroServer
